import Mathlib

/-!
Verification of the duplication progress state machine of rDSN's meta server
(`duplication_info`). The header `duplication_info.h` is present in the
sources: the constructor, `start`, `status`, `fail_mode`,
`to_duplication_entry`, the `partition_progress` struct and the `json_helper`
struct are translated directly from it. The bodies of `alter_status`,
`persist_status`, `alter_progress`, `init_progress`, `persist_progress`,
`to_json_blob` and `decode_from_blob` live in `duplication_info.cpp`, which is
not among the sources; those operations are modelled from the specification
(sections 4.1-4.3), as marked on each definition.
-/

namespace dsn
namespace replication

/-- Lifecycle status of a duplication (`duplication_status::type`).
The header references `DS_INIT`, `DS_START` and `DS_REMOVED`; the spec's
transition table also names a paused state. -/
inductive duplication_status
  | DS_INIT
  | DS_START
  | DS_PAUSE
  | DS_REMOVED
deriving DecidableEq, Repr

/-- Failure-handling policy (`duplication_fail_mode::type`): the spec names
`FAIL_SLOW` (tolerate lag and retry) and `FAIL_FAST` (surface errors). -/
inductive duplication_fail_mode
  | FAIL_SLOW
  | FAIL_FAST
deriving DecidableEq, Repr

/-- Result of a status-change request. The spec's only error kind for
`alter_status` is `InvalidTransition` (section 7). -/
inductive error_code
  | ERR_OK
  | ERR_INVALID_TRANSITION
deriving DecidableEq, Repr

/-- Sentinel for a decree position that has never been set. The repository
declares it outside the given sources (`replication_other_types.h`); the
concrete value is immaterial to the properties proved here. -/
def invalid_decree : Int := -1

/-- Per-partition progress record, translated from the nested struct
`duplication_info::partition_progress` in the header, with its member
initializers. -/
structure partition_progress where
  volatile_decree : Int := invalid_decree
  stored_decree : Int := invalid_decree
  is_altering : Bool := false
  last_progress_update_ms : Nat := 0
  is_inited : Bool := false
deriving DecidableEq, Repr

/-- The duplication registry entry, translated from the data members of
`duplication_info` in the header. The progress table models the C++
`std::map<int, partition_progress>` as an association list with unique keys. -/
structure duplication_info where
  id : Nat := 0
  app_id : Int := 0
  remote : String := ""
  store_path : String := ""
  create_timestamp_ms : Nat := 0
  _is_altering : Bool := false
  _progress : List (Int × partition_progress) := []
  _status : duplication_status := duplication_status.DS_INIT
  _next_status : duplication_status := duplication_status.DS_INIT
  _fail_mode : duplication_fail_mode := duplication_fail_mode.FAIL_SLOW
  _next_fail_mode : duplication_fail_mode := duplication_fail_mode.FAIL_SLOW
deriving DecidableEq, Repr

/-- The constructor of `duplication_info`, translated from the header: it
stores the identity fields and default-constructs one `partition_progress`
per partition index `0 .. partition_count - 1`. -/
def duplication_info.construct (dupid : Nat) (appid : Int) (partition_count : Nat)
    (create_now_ms : Nat) (remote_cluster_name : String) (meta_store_path : String) :
    duplication_info :=
  { id := dupid
    app_id := appid
    remote := remote_cluster_name
    store_path := meta_store_path
    create_timestamp_ms := create_now_ms
    _progress := (List.range partition_count).map
      (fun i : Nat => ((i : Int), ({} : partition_progress))) }

/-- `duplication_info::start`, translated from the header: unconditionally
sets the altering flag and stages `DS_START`. -/
def duplication_info.start (e : duplication_info) : duplication_info :=
  { e with _is_altering := true, _next_status := duplication_status.DS_START }

/-- Modelled from the spec: the fixed transition legality table of section
4.1 — INIT→START, START→PAUSE, START→REMOVED, PAUSE→START, PAUSE→REMOVED;
any transition into REMOVED is terminal and has no outgoing edges. The body
of `alter_status` is in `duplication_info.cpp`, absent from the sources. -/
def allowed_transition : duplication_status → duplication_status → Bool
  | duplication_status.DS_INIT, duplication_status.DS_START => true
  | duplication_status.DS_START, duplication_status.DS_PAUSE => true
  | duplication_status.DS_START, duplication_status.DS_REMOVED => true
  | duplication_status.DS_PAUSE, duplication_status.DS_START => true
  | duplication_status.DS_PAUSE, duplication_status.DS_REMOVED => true
  | _, _ => false

/-- Modelled from the spec (section 4.1), the body of
`duplication_info::alter_status` being absent from the sources: fails with
`InvalidTransition` if a change is already in flight or if the target is not
reachable per the legality table; on success stages the target status and
fail mode and sets the altering flag, leaving the authoritative fields
untouched. -/
def duplication_info.alter_status (e : duplication_info)
    (to_status : duplication_status) (to_fail_mode : duplication_fail_mode) :
    error_code × duplication_info :=
  if e._is_altering then
    (error_code.ERR_INVALID_TRANSITION, e)
  else if allowed_transition e._status to_status then
    (error_code.ERR_OK,
      { e with _is_altering := true
               _next_status := to_status
               _next_fail_mode := to_fail_mode })
  else
    (error_code.ERR_INVALID_TRANSITION, e)

/-- Modelled from the spec (section 4.1), the body of
`duplication_info::persist_status` being absent from the sources: after the
durable write succeeds, commits the staged status and fail mode into the
authoritative fields and clears the altering flag; a call with no pending
stage is a no-op. -/
def duplication_info.persist_status (e : duplication_info) : duplication_info :=
  if e._is_altering then
    { e with _status := e._next_status
             _fail_mode := e._next_fail_mode
             _is_altering := false }
  else e

/-- Per-partition effect of `init_progress`, modelled from the spec (section
4.2): creates or resets the record with both decrees equal to the confirmed
decree, initialized, not altering. -/
def pp_init (confirmed : Int) : partition_progress :=
  { volatile_decree := confirmed
    stored_decree := confirmed
    is_altering := false
    last_progress_update_ms := 0
    is_inited := true }

/-- Per-partition effect of `alter_progress`, modelled from the spec (section
4.2): returns `false` without change when the partition is not initialized or
the decree is stale (`d ≤ volatile_decree`); otherwise advances the volatile
decree, records the update time, marks the partition altering, returns
`true`. -/
def pp_alter (d : Int) (now_ms : Nat) (p : partition_progress) :
    Bool × partition_progress :=
  if p.is_inited = false then (false, p)
  else if d ≤ p.volatile_decree then (false, p)
  else (true, { p with volatile_decree := d
                       last_progress_update_ms := now_ms
                       is_altering := true })

/-- Per-partition effect of `persist_progress`, modelled from the spec
(section 4.2): after the durable write of this partition's progress, the
stored decree catches up to the volatile decree and the altering flag is
cleared. -/
def pp_persist (p : partition_progress) : partition_progress :=
  { p with stored_decree := p.volatile_decree, is_altering := false }

/-- Lookup of one partition's progress record in the progress table. -/
def duplication_info.lookup_progress (e : duplication_info) (i : Int) :
    Option partition_progress :=
  (e._progress.find? (fun kv => kv.1 == i)).map Prod.snd

/-- Replacement of one partition's progress record in the progress table
(no-op on the table when the key is absent). -/
def duplication_info.set_progress (e : duplication_info) (i : Int)
    (p : partition_progress) : duplication_info :=
  { e with _progress := e._progress.map (fun kv => if kv.1 == i then (i, p) else kv) }

/-- Modelled from the spec (section 4.2), the body of
`duplication_info::init_progress` being absent from the sources: creates or
resets the partition's record via `pp_init`. -/
def duplication_info.init_progress (e : duplication_info) (i : Int)
    (confirmed : Int) : duplication_info :=
  if e._progress.any (fun kv => kv.1 == i) then
    e.set_progress i (pp_init confirmed)
  else
    { e with _progress := e._progress ++ [(i, pp_init confirmed)] }

/-- Modelled from the spec (section 4.2), the body of
`duplication_info::alter_progress` being absent from the sources: applies
`pp_alter` to the partition's record, returning `false` without change for an
unknown partition. -/
def duplication_info.alter_progress (e : duplication_info) (i : Int) (d : Int)
    (now_ms : Nat) : Bool × duplication_info :=
  match e.lookup_progress i with
  | none => (false, e)
  | some p =>
    let r := pp_alter d now_ms p
    if r.1 then (true, e.set_progress i r.2) else (false, e)

/-- Modelled from the spec (section 4.2), the body of
`duplication_info::persist_progress` being absent from the sources: applies
`pp_persist` to the partition's record. -/
def duplication_info.persist_progress (e : duplication_info) (i : Int) :
    duplication_info :=
  match e.lookup_progress i with
  | none => e
  | some p => e.set_progress i (pp_persist p)

/-- Wire-ready query record, translated from the fields of
`duplication_entry` that `to_duplication_entry` fills in. -/
structure duplication_entry where
  dupid : Nat
  create_ts : Nat
  remote : String
  status : duplication_status
  fail_mode : duplication_fail_mode
  isset_progress : Bool
  progress : List (Int × Int)
deriving DecidableEq, Repr

/-- `duplication_info::to_duplication_entry`, translated from the header:
copies the identity fields, the authoritative status and fail mode, and maps
every initialized partition to its stored decree, skipping uninitialized
ones. -/
def duplication_info.to_duplication_entry (e : duplication_info) :
    duplication_entry :=
  { dupid := e.id
    create_ts := e.create_timestamp_ms
    remote := e.remote
    status := e._status
    fail_mode := e._fail_mode
    isset_progress := true
    progress := (e._progress.filter (fun kv => kv.2.is_inited)).map
      (fun kv => (kv.1, kv.2.stored_decree)) }

/-- The persisted representation, translated from the nested struct
`duplication_info::json_helper` in the header: remote cluster name, status,
creation timestamp, fail mode. The JSON byte serialization itself is
collaborator plumbing; the blob is modelled by the record it encodes. -/
structure json_helper where
  remote : String
  status : duplication_status
  create_timestamp_ms : Nat
  fail_mode : duplication_fail_mode
deriving DecidableEq, Repr

/-- `duplication_info::to_json_blob`, modelled from the spec (section 4.3)
and the header's own comment ("The status in json is `next_status`"), its
body being absent from the sources: serializes the staged status and staged
fail mode, never the authoritative ones. -/
def duplication_info.to_json_blob (e : duplication_info) : json_helper :=
  { remote := e.remote
    status := e._next_status
    create_timestamp_ms := e.create_timestamp_ms
    fail_mode := e._next_fail_mode }

/-- `duplication_info::decode_from_blob`, modelled from the spec (sections
4.3 and 9), its body being absent from the sources: reconstructs an entry
from the identity parameters and the blob; all partitions begin
uninitialized, and recovery resumes forward into the persisted (staged)
status and fail mode. -/
def duplication_info.decode_from_blob (dup_id : Nat) (app_id : Int)
    (partition_count : Nat) (store_path : String) (j : json_helper) :
    duplication_info :=
  let dup := duplication_info.construct dup_id app_id partition_count
    j.create_timestamp_ms j.remote store_path
  { dup with _status := j.status, _fail_mode := j.fail_mode }

/-- One call in a sequence of per-partition progress operations: the
arguments of `init_progress`, `alter_progress` (with its call time) or
`persist_progress` restricted to a single fixed partition. -/
inductive progress_op
  | init (confirmed : Int)
  | alter (d : Int) (now_ms : Nat)
  | persist
deriving DecidableEq, Repr

/-- Effect of one progress operation on a single partition's record
(discarding `alter_progress`'s boolean result). -/
def apply_progress_op (p : partition_progress) : progress_op → partition_progress
  | progress_op.init c => pp_init c
  | progress_op.alter d now => (pp_alter d now p).2
  | progress_op.persist => pp_persist p

/-- The states a partition's record passes through under a sequence of
progress operations, one state per operation performed. -/
def progress_trace (p : partition_progress) : List progress_op → List partition_progress
  | [] => []
  | op :: ops =>
    apply_progress_op p op :: progress_trace (apply_progress_op p op) ops

/-- Does the operation reset the partition (an `init_progress` call)? -/
def is_init_op : progress_op → Bool
  | progress_op.init _ => true
  | _ => false

/-- Claim C2: whenever the altering flag is set, `alter_status` fails with
the invalid-transition error for every target status and every target fail
mode, and leaves the entry — authoritative status, fail mode and the staged
fields included — unchanged. -/
theorem alter_status_single_flight (e : duplication_info)
    (to_status : duplication_status) (to_fail_mode : duplication_fail_mode)
    (h : e._is_altering = true) :
    e.alter_status to_status to_fail_mode = (error_code.ERR_INVALID_TRANSITION, e) := by
  simp [duplication_info.alter_status, h]

/-- Witness for C2: a concrete in-flight entry is rejected unchanged. -/
theorem alter_status_single_flight_witness :
    ({ _is_altering := true } : duplication_info).alter_status
        duplication_status.DS_START duplication_fail_mode.FAIL_FAST =
      (error_code.ERR_INVALID_TRANSITION, { _is_altering := true }) :=
  alter_status_single_flight _ _ _ rfl

/-- Claim C3: from the terminal removed state, `alter_status` fails for
every target status and fail mode — the removed state has no outgoing
transition in the legality table — and the entry is unchanged. -/
theorem alter_status_removed_terminal (e : duplication_info)
    (to_status : duplication_status) (to_fail_mode : duplication_fail_mode)
    (h : e._status = duplication_status.DS_REMOVED) :
    e.alter_status to_status to_fail_mode = (error_code.ERR_INVALID_TRANSITION, e) := by
  unfold duplication_info.alter_status
  split
  · rfl
  · rw [h]
    cases to_status <;> simp [allowed_transition]

/-- Witness for C3: a concrete removed entry rejects a concrete target. -/
theorem alter_status_removed_terminal_witness :
    ({ _status := duplication_status.DS_REMOVED } : duplication_info).alter_status
        duplication_status.DS_START duplication_fail_mode.FAIL_SLOW =
      (error_code.ERR_INVALID_TRANSITION,
        { _status := duplication_status.DS_REMOVED }) :=
  alter_status_removed_terminal _ _ _ rfl

/-- Claim C8: a successful `alter_status` call leaves the authoritative
status and fail mode (and the progress table) unchanged, changing only the
staged status, the staged fail mode and the altering flag; the authoritative
fields take the staged values only when `persist_status` commits them. -/
theorem alter_status_stages_only (e : duplication_info)
    (to_status : duplication_status) (to_fail_mode : duplication_fail_mode)
    (h : (e.alter_status to_status to_fail_mode).1 = error_code.ERR_OK) :
    (e.alter_status to_status to_fail_mode).2._status = e._status ∧
    (e.alter_status to_status to_fail_mode).2._fail_mode = e._fail_mode ∧
    (e.alter_status to_status to_fail_mode).2._progress = e._progress ∧
    (e.alter_status to_status to_fail_mode).2._next_status = to_status ∧
    (e.alter_status to_status to_fail_mode).2._next_fail_mode = to_fail_mode ∧
    (e.alter_status to_status to_fail_mode).2._is_altering = true ∧
    ((e.alter_status to_status to_fail_mode).2.persist_status)._status = to_status ∧
    ((e.alter_status to_status to_fail_mode).2.persist_status)._fail_mode = to_fail_mode := by
  unfold duplication_info.alter_status at h ⊢
  split at h
  · exact absurd h (by simp)
  · split at h
    · rename_i hna hall
      simp [duplication_info.persist_status, hna, hall]
    · exact absurd h (by simp)

/-- Witness for C8: a fresh entry accepts INIT→START and stages it; the
commit then makes START authoritative. -/
theorem alter_status_stages_only_witness :
    (({} : duplication_info).alter_status duplication_status.DS_START
        duplication_fail_mode.FAIL_FAST).1 = error_code.ERR_OK ∧
    (({} : duplication_info).alter_status duplication_status.DS_START
        duplication_fail_mode.FAIL_FAST).2._status = duplication_status.DS_INIT ∧
    ((({} : duplication_info).alter_status duplication_status.DS_START
        duplication_fail_mode.FAIL_FAST).2.persist_status)._status =
      duplication_status.DS_START :=
  ⟨rfl,
    (alter_status_stages_only {} duplication_status.DS_START
      duplication_fail_mode.FAIL_FAST rfl).1,
    (alter_status_stages_only {} duplication_status.DS_START
      duplication_fail_mode.FAIL_FAST rfl).2.2.2.2.2.2.1⟩

/-- Claim C9: `start` unconditionally stages `DS_START` and sets the
altering flag, whatever the current state of the entry — the authoritative
status, fail mode and progress table are untouched. -/
theorem start_unconditionally_stages (e : duplication_info) :
    (e.start)._is_altering = true ∧
    (e.start)._next_status = duplication_status.DS_START ∧
    (e.start)._status = e._status ∧
    (e.start)._progress = e._progress :=
  ⟨rfl, rfl, rfl, rfl⟩

/-- Claim C7: the persisted encoding carries the staged (next) status, not
the current authoritative one: its status field always equals
`_next_status`, so whenever a transition is pending (`_status ≠
`_next_status`) the blob disagrees with the authoritative status. -/
theorem to_json_blob_stages_next_status (e : duplication_info) :
    (e.to_json_blob).status = e._next_status ∧
    (e._status ≠ e._next_status → (e.to_json_blob).status ≠ e._status) :=
  ⟨rfl, fun h => fun hh => h hh.symm⟩

/-- Witness for C7: on an entry staged INIT→START, the encoded status is
START, not the authoritative INIT. -/
theorem to_json_blob_stages_next_status_witness :
    duplication_status.DS_INIT ≠ duplication_status.DS_START ∧
    (({ _status := duplication_status.DS_INIT
        _next_status := duplication_status.DS_START } :
          duplication_info).to_json_blob).status ≠ duplication_status.DS_INIT :=
  ⟨by decide,
    (to_json_blob_stages_next_status
      { _status := duplication_status.DS_INIT
        _next_status := duplication_status.DS_START }).2 (by decide)⟩

/-- Claim C5: decoding the blob produced by encoding an entry (with matching
id, app id, partition count and store path) reproduces the remote cluster
name, the staged status and staged fail mode, and the creation timestamp. -/
theorem decode_encode_round_trip (e : duplication_info) (n : Nat) :
    (duplication_info.decode_from_blob e.id e.app_id n e.store_path
        e.to_json_blob).remote = e.remote ∧
    (duplication_info.decode_from_blob e.id e.app_id n e.store_path
        e.to_json_blob)._status = e._next_status ∧
    (duplication_info.decode_from_blob e.id e.app_id n e.store_path
        e.to_json_blob)._fail_mode = e._next_fail_mode ∧
    (duplication_info.decode_from_blob e.id e.app_id n e.store_path
        e.to_json_blob).create_timestamp_ms = e.create_timestamp_ms ∧
    (duplication_info.decode_from_blob e.id e.app_id n e.store_path
        e.to_json_blob).id = e.id ∧
    (duplication_info.decode_from_blob e.id e.app_id n e.store_path
        e.to_json_blob).store_path = e.store_path :=
  ⟨rfl, rfl, rfl, rfl, rfl, rfl⟩

/-- Claim C6: `to_duplication_entry` exposes the authoritative status and
fail mode, and its progress mapping holds exactly the initialized partitions,
each mapped to its stored decree — never the staged status nor any volatile
decree, and uninitialized partitions are omitted. -/
theorem to_duplication_entry_reports_durable_state (e : duplication_info)
    (i d : Int) :
    (e.to_duplication_entry).status = e._status ∧
    (e.to_duplication_entry).fail_mode = e._fail_mode ∧
    ((i, d) ∈ (e.to_duplication_entry).progress ↔
      ∃ p, (i, p) ∈ e._progress ∧ p.is_inited = true ∧ p.stored_decree = d) := by
  refine ⟨rfl, rfl, ?_⟩
  simp only [duplication_info.to_duplication_entry, List.mem_map, List.mem_filter]
  constructor
  · rintro ⟨⟨k, p⟩, ⟨hm, hini⟩, hpair⟩
    obtain ⟨hk, hd⟩ := Prod.mk.injEq .. ▸ hpair
    exact ⟨p, by rw [← hk]; exact hm, hini, hd⟩
  · rintro ⟨p, hm, hini, hd⟩
    exact ⟨(i, p), ⟨hm, hini⟩, by simp [hd]⟩

/-- Claim C10: the constructor eagerly creates a progress record for every
partition index `0 .. n-1`, each uninitialized with both decrees at
`invalid_decree` and the altering flag clear; there are no other records,
and consequently a freshly constructed entry reports an empty progress
mapping. -/
theorem construct_initial_progress (dupid : Nat) (appid : Int) (n : Nat)
    (now_ms : Nat) (remote_name meta_path : String) :
    (∀ i : Nat, i < n →
      ((i : Int), ({} : partition_progress)) ∈
        (duplication_info.construct dupid appid n now_ms remote_name meta_path)._progress) ∧
    (∀ i p, (i, p) ∈
        (duplication_info.construct dupid appid n now_ms remote_name meta_path)._progress →
      0 ≤ i ∧ i < (n : Int) ∧ p.is_inited = false ∧
      p.volatile_decree = invalid_decree ∧ p.stored_decree = invalid_decree ∧
      p.is_altering = false) ∧
    ((duplication_info.construct dupid appid n now_ms remote_name
        meta_path).to_duplication_entry).progress = [] := by
  refine ⟨?_, ?_, ?_⟩
  · intro i hi
    exact List.mem_map.mpr ⟨i, List.mem_range.mpr hi, rfl⟩
  · intro i p hm
    obtain ⟨k, hk, hpair⟩ := List.mem_map.mp hm
    have hkn : k < n := List.mem_range.mp hk
    obtain ⟨hk1, hk2⟩ := Prod.mk.injEq .. ▸ hpair
    subst hk1
    subst hk2
    exact ⟨by omega, by omega, rfl, rfl, rfl, rfl⟩
  · simp only [duplication_info.to_duplication_entry]
    have h0 : ((duplication_info.construct dupid appid n now_ms remote_name
        meta_path)._progress).filter (fun kv => kv.2.is_inited) = [] := by
      rw [List.filter_eq_nil_iff]
      intro a ha
      obtain ⟨k, hk, hpair⟩ := List.mem_map.mp ha
      rw [← hpair]
      simp
    rw [h0]
    rfl

/-- Witness for C10: with two partitions, index 0 is present with the
default record, every present record is in range and uninitialized, and the
query projection of the fresh entry is empty. -/
theorem construct_initial_progress_witness :
    ((0 : Int), ({} : partition_progress)) ∈
      (duplication_info.construct 1 2 2 5 "cluster" "path")._progress ∧
    ((duplication_info.construct 1 2 2 5 "cluster"
        "path").to_duplication_entry).progress = [] :=
  ⟨(construct_initial_progress 1 2 2 5 "cluster" "path").1 0 (by decide),
    (construct_initial_progress 1 2 2 5 "cluster" "path").2.2⟩

/-- Replacing a key that is present in an association table makes a
subsequent lookup of that key return the replacement. -/
theorem find_replace_self (l : List (Int × partition_progress)) (i : Int)
    (p' : partition_progress)
    (h : (l.find? (fun kv => kv.1 == i)).isSome = true) :
    (l.map (fun kv => if kv.1 == i then (i, p') else kv)).find?
      (fun kv => kv.1 == i) = some (i, p') := by
  induction l with
  | nil => simp at h
  | cons a l ih =>
    by_cases ha : (a.1 == i) = true
    · simp only [List.map_cons, if_pos ha]
      exact @List.find?_cons_of_pos _ (fun kv => kv.1 == i) (i, p') _ (by simp)
    · simp only [List.map_cons, if_neg ha]
      rw [@List.find?_cons_of_neg _ (fun kv => kv.1 == i) a _ ha]
      apply ih
      rw [@List.find?_cons_of_neg _ (fun kv => kv.1 == i) a _ ha] at h
      exact h

/-- When the partition is present, `set_progress` makes its lookup return
the stored replacement. -/
theorem lookup_set_progress_self (e : duplication_info) (i : Int)
    (p p' : partition_progress) (h : e.lookup_progress i = some p) :
    (e.set_progress i p').lookup_progress i = some p' := by
  unfold duplication_info.lookup_progress at h ⊢
  unfold duplication_info.set_progress
  have hs : (e._progress.find? (fun kv => kv.1 == i)).isSome = true := by
    cases hf : e._progress.find? (fun kv => kv.1 == i) with
    | none => rw [hf] at h; simp at h
    | some kv => simp [hf]
  rw [find_replace_self e._progress i p' hs]
  rfl

/-- Claim C4: `alter_progress` returns `false` and changes nothing when the
decree is not beyond the current volatile decree or the partition is not
initialized (an unknown partition included); otherwise it advances the
volatile decree to the new value, records the call time, raises the
partition's altering flag and returns `true`. -/
theorem alter_progress_stale_or_advance (e : duplication_info) (i d : Int)
    (now_ms : Nat) :
    ((∀ p, e.lookup_progress i = some p →
        p.is_inited = false ∨ d ≤ p.volatile_decree) →
      e.alter_progress i d now_ms = (false, e)) ∧
    (∀ p, e.lookup_progress i = some p → p.is_inited = true →
        p.volatile_decree < d →
      (e.alter_progress i d now_ms).1 = true ∧
      (e.alter_progress i d now_ms).2.lookup_progress i =
        some { p with volatile_decree := d
                      last_progress_update_ms := now_ms
                      is_altering := true }) := by
  constructor
  · intro hstale
    unfold duplication_info.alter_progress
    cases hl : e.lookup_progress i with
    | none => rfl
    | some p =>
      rcases hstale p hl with hni | hle
      · simp [pp_alter, hni]
      · by_cases hin : p.is_inited = false
        · simp [pp_alter, hin]
        · simp [pp_alter, hin, hle]
  · intro p hl hin hlt
    have hr : pp_alter d now_ms p =
        (true, { p with volatile_decree := d
                        last_progress_update_ms := now_ms
                        is_altering := true }) := by
      unfold pp_alter
      rw [if_neg (by simp [hin]), if_neg (not_le.mpr hlt)]
    unfold duplication_info.alter_progress
    rw [hl]
    simp only [hr]
    exact ⟨rfl, lookup_set_progress_self e i p _ hl⟩

/-- Witness for C4: on a one-partition table initialized at decree 3, a push
of decree 2 is dropped unchanged and a push of decree 7 advances the
volatile decree, stamps the time and raises the altering flag. -/
theorem alter_progress_stale_or_advance_witness :
    (({ _progress := [(0, pp_init 3)] } : duplication_info).alter_progress 0 2 50 =
      (false, { _progress := [(0, pp_init 3)] })) ∧
    ((({ _progress := [(0, pp_init 3)] } : duplication_info).alter_progress 0 7 50).1 =
      true) ∧
    ((({ _progress := [(0, pp_init 3)] } : duplication_info).alter_progress
        0 7 50).2.lookup_progress 0 =
      some { pp_init 3 with volatile_decree := 7
                            last_progress_update_ms := 50
                            is_altering := true }) :=
  ⟨(alter_progress_stale_or_advance { _progress := [(0, pp_init 3)] } 0 2 50).1
      (by
        intro p hp
        have h3 : some (pp_init 3) = some p := hp
        injection h3 with h4
        rw [← h4]
        right
        decide),
    ((alter_progress_stale_or_advance { _progress := [(0, pp_init 3)] } 0 7 50).2
      (pp_init 3) rfl rfl (by decide)).1,
    ((alter_progress_stale_or_advance { _progress := [(0, pp_init 3)] } 0 7 50).2
      (pp_init 3) rfl rfl (by decide)).2⟩

/-- `pp_alter` never lowers the stored decree — it does not touch it. -/
theorem pp_alter_stored (d : Int) (now_ms : Nat) (p : partition_progress) :
    (pp_alter d now_ms p).2.stored_decree = p.stored_decree := by
  unfold pp_alter
  split
  · rfl
  · split
    · rfl
    · rfl

/-- `pp_alter` preserves the invariant `stored_decree ≤ volatile_decree`. -/
theorem pp_alter_inv (d : Int) (now_ms : Nat) (p : partition_progress)
    (hp : p.stored_decree ≤ p.volatile_decree) :
    (pp_alter d now_ms p).2.stored_decree ≤ (pp_alter d now_ms p).2.volatile_decree := by
  unfold pp_alter
  split
  · exact hp
  · split
    · exact hp
    · rename_i hle
      show p.stored_decree ≤ d
      omega

/-- Claim C1 (amended): over every sequence of init, alter and persist
operations on one partition, `stored_decree ≤ volatile_decree` holds after
every operation; and `stored_decree` is non-decreasing over time provided
the sequence contains no init operation — an init resets both decrees to
its confirmed decree, which may be lower than the current stored one. -/
theorem progress_monotonic (p : partition_progress)
    (hp : p.stored_decree ≤ p.volatile_decree) (ops : List progress_op) :
    (∀ q ∈ progress_trace p ops, q.stored_decree ≤ q.volatile_decree) ∧
    (ops.all (fun op => !is_init_op op) = true →
      (p :: progress_trace p ops).Chain'
        (fun a b => a.stored_decree ≤ b.stored_decree)) := by
  induction ops generalizing p with
  | nil => simp [progress_trace]
  | cons op ops ih =>
    have hinv : (apply_progress_op p op).stored_decree ≤
        (apply_progress_op p op).volatile_decree := by
      cases op with
      | init c => exact le_refl c
      | alter d now_ms => exact pp_alter_inv d now_ms p hp
      | persist => exact le_refl p.volatile_decree
    obtain ⟨ih1, ih2⟩ := ih (apply_progress_op p op) hinv
    constructor
    · intro q hq
      rw [progress_trace] at hq
      rcases List.mem_cons.mp hq with h | h
      · exact h ▸ hinv
      · exact ih1 q h
    · intro hall
      simp only [List.all_cons, Bool.and_eq_true] at hall
      obtain ⟨hop, hops⟩ := hall
      rw [progress_trace, List.chain'_cons]
      refine ⟨?_, ih2 hops⟩
      cases op with
      | init c => simp [is_init_op] at hop
      | alter d now_ms =>
        show p.stored_decree ≤ (pp_alter d now_ms p).2.stored_decree
        rw [pp_alter_stored]
      | persist => exact hp

/-- Witness for C1 (amended): from the freshly constructed record, the
init-free sequence alter(5) then persist keeps the invariant after every
step and `stored_decree` non-decreasing along the whole run. -/
theorem progress_monotonic_witness :
    (∀ q ∈ progress_trace {} [progress_op.alter 5 100, progress_op.persist],
        q.stored_decree ≤ q.volatile_decree) ∧
    (({} : partition_progress) ::
        progress_trace {} [progress_op.alter 5 100, progress_op.persist]).Chain'
      (fun a b => a.stored_decree ≤ b.stored_decree) :=
  ⟨(progress_monotonic {} (by decide)
      [progress_op.alter 5 100, progress_op.persist]).1,
    (progress_monotonic {} (by decide)
      [progress_op.alter 5 100, progress_op.persist]).2 (by decide)⟩

/-- Counterexample to claim C1 as stated: with init calls admitted in the
sequence, a second `init_progress` at a lower confirmed decree makes the
stored decree fall from 10 to 5, so it is not non-decreasing over time. -/
theorem progress_monotonic_counterexample :
    (progress_trace {} [progress_op.init 10, progress_op.init 5]).map
        partition_progress.stored_decree = [10, 5] ∧
    ¬ ((10 : Int) ≤ 5) := by decide

end replication
end dsn

